import Mathlib

/-!
Verification of the multi-agent communication subsystem under
`superpowers/skills/agent-communication/scripts/` (agent.py, chat.py,
human-cli.py): a shallow embedding of the daemon's command handling,
message reception, peer delivery, framed transport readers and registry
reads, with theorems settling the specified properties.

Python dictionaries with optional keys are embedded as structures with
`Option` fields; `dict.get(k)` becomes field access, Python truthiness of
a string (`if s:`) becomes "not none and not empty".  Effects on the file
system (the `.unread-messages` side file) and on sockets are embedded as
explicit state fields and outcome parameters.
-/

namespace AgentComm

/-- Embedding of the sender / registry-entry dictionaries used by agent.py.
Python passes plain dicts whose keys vary by producer (registry entries
carry `joined_at` and `socket_path`; `sender` blocks inside messages do
not), so every field is optional, mirroring `dict.get`. -/
structure PeerInfo where
  name : Option String := none
  context : Option String := none
  presentation : Option String := none
  joined_at : Option String := none
  socket_path : Option String := none
deriving Repr, DecidableEq

/-- Embedding of the message dicts exchanged between daemons
(agent.py `handle_remote_message`, `send_message_to_agents`). -/
structure Msg where
  id : Option String := none
  timestamp : Option String := none
  mtype : Option String := none
  sender : PeerInfo := {}
  content : Option String := none
deriving Repr, DecidableEq

/-- Replies written by the daemon (the dicts returned from
`Agent.handle_command` / `Agent.handle_remote_message`).  Each variant is
one shape of reply dict in agent.py. -/
inductive Reply where
  | ok
  | okSend (delivered : List String) (failed : List (String × String))
  | okReceive (messages : List Msg)
  | okStatus (agentName agentContext : String)
      (members : List (String × PeerInfo)) (queueSize : Nat)
  | error (err : String)
deriving Repr, DecidableEq

/-- Whether a reply dict has `status == 'ok'`. -/
def Reply.isOk : Reply → Bool
  | .error _ => false
  | _ => true

/-- Lookup in an association-list embedding of a Python dict keyed by
agent name (`registry.get(target_name)`, `self.members`). -/
def dictGet (d : List (String × PeerInfo)) (k : String) : Option PeerInfo :=
  (d.find? (fun p => p.1 = k)).map (·.2)

/-- Python `d[k] = v` on a string-keyed dict: replace if present, else
append (insertion order preserved as in CPython dicts). -/
def dictInsert (d : List (String × PeerInfo)) (k : String) (v : PeerInfo) :
    List (String × PeerInfo) :=
  if d.any (fun p => p.1 = k) then
    d.map (fun p => if p.1 = k then (k, v) else p)
  else d ++ [(k, v)]

/-- Python `del d[k]` (also a no-op deletion when the key is absent). -/
def dictRemove (d : List (String × PeerInfo)) (k : String) :
    List (String × PeerInfo) :=
  d.filter (fun p => p.1 ≠ k)

/-- Python truthiness of an optional string (`if sender_name:`):
present and non-empty. -/
def strTruthy : Option String → Bool
  | none => false
  | some s => s ≠ ""

/-- Mutable daemon state from `Agent.__init__` (agent.py lines 96-111):
the inbound queue (a `deque(maxlen=100)`, head = oldest), the members
cache, the manual-reset wakeup event, and the contents of the
`.unread-messages` side file (`none` = the file does not exist). -/
structure AgentState where
  name : String
  context : String
  presentation : String
  queue : List Msg
  members : List (String × PeerInfo)
  eventSet : Bool
  unreadFile : Option Nat
deriving Repr, DecidableEq

/-- Fresh state built by `Agent.__init__`: empty queue, empty members
cache, event clear.  The unread side file is absent on a fresh cwd. -/
def initState (name context presentation : String) : AgentState :=
  { name := name, context := context, presentation := presentation,
    queue := [], members := [], eventSet := false, unreadFile := none }

/-- Capacity of the inbound queue: `deque(maxlen=100)` (agent.py line 107). -/
def queueMaxlen : Nat := 100

/-- Append on a `deque(maxlen=100)`: when the deque already holds
`maxlen` items, the leftmost (oldest) item is silently discarded. -/
def enqueueBounded (q : List Msg) (m : Msg) : List Msg :=
  if q.length = queueMaxlen then q.tail ++ [m] else q ++ [m]

/-- `Agent.update_unread_file` (agent.py lines 139-146): write the
current queue depth to `.unread-messages` when the depth is positive;
when the depth is zero the file is left untouched. -/
def update_unread_file (s : AgentState) : AgentState :=
  if s.queue.length > 0 then { s with unreadFile := some s.queue.length } else s

/-- `Agent.clear_unread_file` (agent.py lines 148-154): remove the
`.unread-messages` file if it exists. -/
def clear_unread_file (s : AgentState) : AgentState :=
  { s with unreadFile := none }

/-- `Agent.handle_remote_message` (agent.py lines 232-263): branch on the
message type, update the members cache and the queue, refresh the unread
side file, set the wakeup event, and reply `{status: ok}`. -/
def handle_remote_message (s : AgentState) (message : Msg) : Reply × AgentState :=
  let sender_name := message.sender.name
  let s1 :=
    match message.mtype with
    | some "join" =>
      let s' :=
        if strTruthy sender_name ∧ sender_name ≠ some s.name then
          { s with members := dictInsert s.members (sender_name.getD "") message.sender }
        else s
      { s' with queue := enqueueBounded s'.queue message }
    | some "leave" =>
      let s' :=
        if strTruthy sender_name ∧ (s.members.any (fun p => p.1 = sender_name.getD "")) then
          { s with members := dictRemove s.members (sender_name.getD "") }
        else s
      { s' with queue := enqueueBounded s'.queue message }
    | some "message" =>
      if message.sender.name ≠ some s.name then
        { s with queue := enqueueBounded s.queue message }
      else s
    | _ => s
  let s2 := update_unread_file s1
  (Reply.ok, { s2 with eventSet := true })

/-- Outcome of the socket-level part of one transient delivery
(`Agent.send_to_agent`, agent.py lines 205-230): either the connect /
framed write / framed reply-read completed without a socket error — the
reply read may still be `none` (EOF) or any reply dict — or a
`socket.error` / `ConnectionRefusedError` / `FileNotFoundError` was
raised with the given text. -/
inductive SockResult where
  | exchanged (reply : Option Reply)
  | sockError (e : String)

/-- Whether `send_to_agent` reaches the connect for `target`: the
registry re-read must contain the target and its `socket_path` must be
truthy (lines 194-203 return before any socket is opened otherwise). -/
def connectAttempted (reg : List (String × PeerInfo)) (target : String) : Bool :=
  match dictGet reg target with
  | none => false
  | some info => strTruthy info.socket_path

/-- `Agent.send_to_agent` (agent.py lines 188-230).  `reg` is the
registry contents as re-read at the top of the call; `sr` the outcome of
the socket exchange when one is attempted.  Returns the
`(success, error_message)` pair and the state (on a socket error the
target is removed from the members cache). -/
def send_to_agent (s : AgentState) (reg : List (String × PeerInfo))
    (target : String) (sr : SockResult) : (Bool × Option String) × AgentState :=
  match dictGet reg target with
  | none => ((false, some ("Agent " ++ target ++ " not in registry")), s)
  | some info =>
    if strTruthy info.socket_path then
      match sr with
      | .exchanged _ => ((true, none), s)
      | .sockError e =>
        ((false, some e),
         if s.members.any (fun p => p.1 = target) then
           { s with members := dictRemove s.members target }
         else s)
    else ((false, some ("No socket path for " ++ target)), s)

/-- Accumulated result of the delivery loop inside
`Agent.send_message_to_agents` (agent.py lines 347-356): the
`delivered_to` list, the `failed` map, the peers to which a transient
connection was attempted, and the final state. -/
structure DeliverAcc where
  delivered : List String
  failed : List (String × String)
  attempts : List String
  state : AgentState
deriving Repr, DecidableEq

/-- The `for agent_name in members_to_send` loop of
`Agent.send_message_to_agents` (agent.py lines 351-356), with the
per-call socket outcomes given by `sockRes`. -/
def deliverLoop (reg : List (String × PeerInfo)) (sockRes : String → SockResult)
    (s : AgentState) : List String → DeliverAcc
  | [] => ⟨[], [], [], s⟩
  | n :: rest =>
    let r := send_to_agent s reg n (sockRes n)
    let acc := deliverLoop reg sockRes r.2 rest
    { acc with
      delivered := if r.1.1 then n :: acc.delivered else acc.delivered,
      failed := if r.1.1 then acc.failed else (n, (r.1.2).getD "") :: acc.failed,
      attempts := (if connectAttempted reg n then [n] else []) ++ acc.attempts }

/-- Construct the outgoing `message` payload
(agent.py lines 334-345); `now` is the fresh ISO timestamp. -/
def mkOutgoingMessage (s : AgentState) (now content : String) : Msg :=
  { id := some (s.name ++ "-" ++ now), timestamp := some now,
    mtype := some "message",
    sender := { name := some s.name, context := some s.context,
                presentation := some s.presentation },
    content := some content }

/-- `Agent.send_message_to_agents` (agent.py lines 318-358): re-read the
registry, refresh the members cache (registry minus self), and deliver
to each member in turn; with no members return the empty report before
any delivery.  Returns `((delivered_to, failed), state, attempts)`. -/
def send_message_to_agents (s : AgentState) (reg : List (String × PeerInfo))
    (sockRes : String → SockResult) (now content : String) :
    (List String × List (String × String)) × AgentState × List String :=
  let members' := reg.filter (fun p => p.1 ≠ s.name)
  let s1 := { s with members := members' }
  let toSend := members'.map Prod.fst
  if toSend.isEmpty then (([], []), s1, [])
  else
    let _msg := mkOutgoingMessage s1 now content
    let acc := deliverLoop reg sockRes s1 toSend
    ((acc.delivered, acc.failed), acc.state, acc.attempts)

/-- Command envelope fields used by `Agent.handle_command`
(chat.py wraps `{type: command, command, args}`); `content` embeds
`args.get('content', '')` and `timeout` embeds `args.get('timeout', 30)`. -/
structure Command where
  command : Option String
  content : Option String := none
  timeout : Option Nat := none
deriving Repr, DecidableEq

/-- Environment of one command handling: the registry contents read
during the command, the per-peer socket outcomes, the remote messages
that arrive (via concurrent `handle_remote_message` calls) while a
`receive` is blocked on the event wait, and the current timestamp. -/
structure Env where
  registry : List (String × PeerInfo) := []
  sockRes : String → SockResult := fun _ => .sockError ""
  waitArrivals : List Msg := []
  now : String := ""

/-- Result of `Agent.handle_command`: the reply dict, the daemon state
after the command, and the peers to which a transient connection was
attempted during the command. -/
structure CmdResult where
  reply : Reply
  state : AgentState
  attempts : List String
deriving Repr, DecidableEq

/-- The `receive` branch of `Agent.handle_command` (agent.py lines
396-417): clear the event, drain the whole queue; if nothing was queued,
wait up to the timeout for the event (`waitArrivals` are the messages
arriving during that wait) and, if the event fired, drain again; finally
delete the unread side file and reply with the batch. -/
def receive_command (s : AgentState) (_timeout : Nat) (waitArrivals : List Msg) :
    Reply × AgentState :=
  let s1 := { s with eventSet := false }
  let messages := s1.queue
  let s2 := { s1 with queue := [] }
  let drained :=
    if messages.isEmpty then
      let sW := waitArrivals.foldl (fun st m => (handle_remote_message st m).2) s2
      if sW.eventSet then (sW.queue, { sW with queue := [] }) else ([], sW)
    else (messages, s2)
  (Reply.okReceive drained.1, clear_unread_file drained.2)

/-- `Agent.handle_command` (agent.py lines 375-433): dispatch on the
`command` field to the send / receive / status branches, otherwise reply
with an unknown-command error. -/
def handle_command (s : AgentState) (cmd : Command) (env : Env) : CmdResult :=
  if cmd.command = some "send" then
    if s.queue.isEmpty then
      let content := cmd.content.getD ""
      let r := send_message_to_agents s env.registry env.sockRes env.now content
      ⟨Reply.okSend r.1.1 r.1.2, r.2.1, r.2.2⟩
    else
      ⟨Reply.error ("Cannot send: " ++ toString s.queue.length ++
          " unread message(s). Use \"receive\" first."), s, []⟩
  else if cmd.command = some "receive" then
    let timeout := cmd.timeout.getD 30
    let r := receive_command s timeout env.waitArrivals
    ⟨r.1, r.2, []⟩
  else if cmd.command = some "status" then
    ⟨Reply.okStatus s.name s.context s.members s.queue.length, s, []⟩
  else
    ⟨Reply.error ("Unknown command: " ++
        (match cmd.command with | some c => c | none => "None")), s, []⟩

/-- Abstract steps of daemon startup, used to state ordering properties
of `Agent.run` (agent.py lines 480-489). -/
inductive StartupStep where
  | registryRead
  | staleProbe
  | staleEvict
  | registryWrite
  | membersCache
  | joinBroadcast
  | unlinkOldEndpoint
  | bindEndpoint
  | acceptLoop
deriving Repr, BEq, DecidableEq

/-- Step trace of `Agent.register` (agent.py lines 265-316) on the
successful path: `read_registry()`; if the name is present, probe it with
`check_agent_alive` and delete the stale entry; `write_registry` with the
new entry; refresh the members cache; broadcast `join` to each member. -/
def registerTrace : List StartupStep :=
  [.registryRead, .staleProbe, .staleEvict, .registryWrite, .membersCache,
   .joinBroadcast]

/-- Step trace of `Agent.start_local_server` (agent.py lines 360-373):
unlink a stale socket file at the path, then bind and listen. -/
def start_local_serverTrace : List StartupStep :=
  [.unlinkOldEndpoint, .bindEndpoint]

/-- Step trace of `Agent.run` (agent.py lines 480-489): `register()`,
then `start_local_server()`, then `run_local_server()` (the accept loop). -/
def runTrace : List StartupStep :=
  registerTrace ++ start_local_serverTrace ++ [.acceptLoop]

/-- Big-endian 32-bit decode of the 4-byte length header
(`struct.unpack` of format `>I`). -/
def be32 : List Nat → Nat
  | [a, b, c, d] => ((a * 256 + b) * 256 + c) * 256 + d
  | _ => 0

/-- The `MAX_MESSAGE_SIZE` sanity bound of agent.py line 169: 1 MiB. -/
def MAX_MESSAGE_SIZE : Nat := 1024 * 1024

/-- Result of the daemon-side framed read: `closed` when EOF arrives
before a complete frame (the reader returns `None`), `tooLarge` when the
declared length exceeds the 1 MiB bound (the reader raises before reading
any body byte), `frame` when a whole body was consumed. -/
inductive RecvResult where
  | closed
  | tooLarge (declared : Nat)
  | frame (body : List Nat)
deriving Repr, DecidableEq

/-- `Agent.recv_framed_message` (agent.py lines 156-181) over the stream
of bytes available on the connection: read the 4-byte big-endian length,
refuse lengths above `MAX_MESSAGE_SIZE` before reading the body, then
loop until exactly that many body bytes are consumed (EOF first means
`closed`).  Returns the outcome and the number of bytes consumed. -/
def recv_framed_message (stream : List Nat) : RecvResult × Nat :=
  if stream.length < 4 then (.closed, stream.length)
  else
    let message_length := be32 (stream.take 4)
    if message_length > MAX_MESSAGE_SIZE then (.tooLarge message_length, 4)
    else
      let rest := stream.drop 4
      if rest.length < message_length then (.closed, stream.length)
      else (.frame (rest.take message_length), 4 + message_length)

/-- Result of the client-side framed read in `send_command` of chat.py
(lines 52-69) and human-cli.py: EOF during the 4-byte header raises
"Connection closed by server"; otherwise the body loop reads up to the
declared length, breaking without error at EOF. -/
inductive ClientRecvResult where
  | connClosedByServer
  | gotData (body : List Nat)
deriving Repr, DecidableEq

/-- The response-reading half of `send_command` (chat.py lines 52-69):
decode the 4-byte length and read the body with NO size bound; on EOF
mid-body the loop breaks and the partial body is returned.  Returns the
outcome and the number of bytes consumed. -/
def client_read_reply (stream : List Nat) : ClientRecvResult × Nat :=
  if stream.length < 4 then (.connClosedByServer, stream.length)
  else
    let response_length := be32 (stream.take 4)
    let body := (stream.drop 4).take response_length
    (.gotData body, 4 + body.length)

/-- Result of Python `json.loads` on the registry file's text: a decoded
registry mapping, or a raised `json.JSONDecodeError` with the given text
(as happens, e.g., on contents "\x7b"). -/
inductive JsonDecode where
  | value (r : List (String × PeerInfo))
  | raises (err : String)

/-- Contents of the registry file as seen by `read_registry`: the file
may be missing, or present with some text whose `json.loads` behaviour
is `loads`. -/
inductive RegistryFileContent where
  | missing
  | present (contents : String) (loads : JsonDecode)

/-- `read_registry` (agent.py lines 48-61): a missing file yields the
empty map; otherwise the whole file is read under a shared lock and
`json.loads(data) if data else {}` is evaluated — an empty file yields
the empty map, and a `json.loads` failure propagates as a raised
exception (there is no try/except around the decode). -/
def read_registry : RegistryFileContent → Except String (List (String × PeerInfo))
  | .missing => .ok []
  | .present contents loads =>
    if contents = "" then .ok []
    else
      match loads with
      | .value r => .ok r
      | .raises e => .error e

/-- One externally triggered state transition of the daemon: an inbound
`remote_message` envelope, or a `command` envelope with its environment. -/
inductive AgentOp where
  | remote (m : Msg)
  | command (cmd : Command) (env : Env)

/-- State transition of one handled envelope
(`Agent._handle_connection` dispatch, agent.py lines 443-449). -/
def stepOp (s : AgentState) : AgentOp → AgentState
  | .remote m => (handle_remote_message s m).2
  | .command cmd env => (handle_command s cmd env).state

/-- Run a sequence of handled envelopes from a state. -/
def runOps (s : AgentState) (ops : List AgentOp) : AgentState :=
  ops.foldl stepOp s

/-- Whether one delivery in the send loop is counted in `delivered_to`:
the registry re-read yields the target with a truthy socket path and the
socket exchange completes, whatever the peer's reply was. -/
def deliverySuccess (reg : List (String × PeerInfo))
    (sockRes : String → SockResult) (n : String) : Bool :=
  connectAttempted reg n &&
    (match sockRes n with
     | .exchanged _ => true
     | .sockError _ => false)

/-- A sample inbound chat message from agent "B". -/
def demoMsg : Msg :=
  { id := some "B-2026-01-01T00:00:00Z",
    timestamp := some "2026-01-01T00:00:00Z",
    mtype := some "message", sender := { name := some "B" },
    content := some "hi" }

/-- A daemon state for agent "A" with one unread message queued. -/
def demoUnreadState : AgentState :=
  { initState "A" "proj" "hello, A here" with queue := [demoMsg] }

/-- A daemon state for agent "A" whose members cache knows "B". -/
def demoMembersState : AgentState :=
  { initState "A" "proj" "hello, A here" with
      members := [("B", { name := some "B" })] }

/-- A registry holding a live entry for agent "B". -/
def demoRegistry : List (String × PeerInfo) :=
  [("B", { name := some "B", context := some "proj",
           socket_path := some "/tmp/claude-agent-chat/B.sock" })]

/-! Helper lemmas shared by the claim theorems. -/

/-- The bounded append keeps the queue within its capacity. -/
theorem enqueueBounded_length_le (q : List Msg) (m : Msg)
    (h : q.length ≤ queueMaxlen) :
    (enqueueBounded q m).length ≤ queueMaxlen := by
  unfold enqueueBounded queueMaxlen at *
  split <;> rename_i h' <;>
    simp only [List.length_append, List.length_tail, List.length_cons,
      List.length_nil] <;> omega

/-- The unread-file update does not touch the queue. -/
theorem update_unread_file_queue (s : AgentState) :
    (update_unread_file s).queue = s.queue := by
  unfold update_unread_file
  split <;> rfl

/-- The remote-message handler always replies `{status: ok}`. -/
theorem handle_remote_message_reply (s : AgentState) (m : Msg) :
    (handle_remote_message s m).1 = Reply.ok := rfl

/-- The remote-message handler always leaves the wakeup event set. -/
theorem handle_remote_message_eventSet (s : AgentState) (m : Msg) :
    ((handle_remote_message s m).2).eventSet = true := rfl

/-- The remote-message handler either appends the message through the
bounded enqueue or leaves the queue untouched. -/
theorem handle_remote_message_queue (s : AgentState) (m : Msg) :
    ((handle_remote_message s m).2).queue = enqueueBounded s.queue m ∨
    ((handle_remote_message s m).2).queue = s.queue := by
  unfold handle_remote_message
  simp only [update_unread_file_queue]
  split
  · split <;> (left ; rfl)
  · split <;> (left ; rfl)
  · split
    · left ; rfl
    · right ; rfl
  · right ; rfl

/-- The remote-message handler preserves the queue-capacity bound. -/
theorem handle_remote_message_queue_le (s : AgentState) (m : Msg)
    (h : s.queue.length ≤ queueMaxlen) :
    ((handle_remote_message s m).2).queue.length ≤ queueMaxlen := by
  rcases handle_remote_message_queue s m with hq | hq <;> rw [hq]
  · exact enqueueBounded_length_le _ _ h
  · exact h

/-- Folding remote arrivals preserves the queue-capacity bound. -/
theorem arrivalsFold_queue_le (l : List Msg) (s : AgentState)
    (h : s.queue.length ≤ queueMaxlen) :
    (l.foldl (fun st m => (handle_remote_message st m).2) s).queue.length ≤
      queueMaxlen := by
  induction l generalizing s with
  | nil => simpa using h
  | cons a rest ih =>
    simpa using ih _ (handle_remote_message_queue_le s a h)

/-- Folding remote arrivals keeps the wakeup event set once it is set. -/
theorem arrivalsFold_eventSet_mono (l : List Msg) (s : AgentState)
    (h : s.eventSet = true) :
    (l.foldl (fun st m => (handle_remote_message st m).2) s).eventSet = true := by
  induction l generalizing s with
  | nil => simpa using h
  | cons a rest ih =>
    simpa using ih _ (handle_remote_message_eventSet s a)

/-- A non-empty batch of remote arrivals leaves the wakeup event set. -/
theorem arrivalsFold_eventSet (l : List Msg) (s : AgentState) (h : l ≠ []) :
    (l.foldl (fun st m => (handle_remote_message st m).2) s).eventSet = true := by
  cases l with
  | nil => exact absurd rfl h
  | cons a rest =>
    simpa using arrivalsFold_eventSet_mono rest _ (handle_remote_message_eventSet s a)

/-- After a `receive`, the queue is always fully drained. -/
theorem receive_command_queue (s : AgentState) (t : Nat) (l : List Msg) :
    (receive_command s t l).2.queue = [] := by
  unfold receive_command clear_unread_file
  cases hq : s.queue.isEmpty with
  | false => simp [hq]
  | true =>
    by_cases hl : l = []
    · subst hl; simp [hq, List.isEmpty_iff.mp hq]
    · simp [hq, arrivalsFold_eventSet l _ hl]

/-- The reply of a `receive` with something already queued is the whole
queue. -/
theorem receive_command_reply_of_nonempty (s : AgentState) (t : Nat)
    (l : List Msg) (h : s.queue ≠ []) :
    (receive_command s t l).1 = Reply.okReceive s.queue := by
  unfold receive_command
  have hq : s.queue.isEmpty = false := by
    simpa [List.isEmpty_iff] using h
  simp [hq]

/-- The reply of a `receive` during which nothing arrives is the whole
initial queue (in particular the empty batch when nothing was queued). -/
theorem receive_command_reply_of_noArrivals (s : AgentState) (t : Nat) :
    (receive_command s t []).1 = Reply.okReceive s.queue := by
  unfold receive_command
  cases hq : s.queue.isEmpty with
  | false => simp [hq]
  | true => simp [hq, List.isEmpty_iff.mp hq]

/-- The receive reply is always a successful message batch. -/
theorem receive_command_reply_ok (s : AgentState) (t : Nat) (l : List Msg) :
    ∃ msgs, (receive_command s t l).1 = Reply.okReceive msgs := by
  unfold receive_command
  exact ⟨_, rfl⟩

/-- One delivery call never touches the queue. -/
theorem send_to_agent_queue (s : AgentState) (reg : List (String × PeerInfo))
    (n : String) (sr : SockResult) :
    (send_to_agent s reg n sr).2.queue = s.queue := by
  unfold send_to_agent
  repeat' split
  all_goals rfl

/-- A completed exchange leaves the daemon state untouched, whatever the
registry held. -/
theorem send_to_agent_exchanged_state (s : AgentState)
    (reg : List (String × PeerInfo)) (n : String) (r : Option Reply) :
    (send_to_agent s reg n (.exchanged r)).2 = s := by
  unfold send_to_agent
  repeat' split
  all_goals first | rfl | simp_all

/-- The success flag of one delivery depends only on the registry entry
and the socket outcome, never on the daemon state or the reply contents. -/
theorem send_to_agent_success (s : AgentState) (reg : List (String × PeerInfo))
    (sockRes : String → SockResult) (n : String) :
    (send_to_agent s reg n (sockRes n)).1.1 = deliverySuccess reg sockRes n := by
  unfold send_to_agent deliverySuccess connectAttempted
  repeat' split
  all_goals simp_all

/-- The delivery loop never touches the queue. -/
theorem deliverLoop_state_queue (reg : List (String × PeerInfo))
    (sockRes : String → SockResult) (targets : List String) (s : AgentState) :
    (deliverLoop reg sockRes s targets).state.queue = s.queue := by
  induction targets generalizing s with
  | nil => rfl
  | cons n rest ih =>
    show (deliverLoop reg sockRes (send_to_agent s reg n (sockRes n)).2 rest).state.queue
        = s.queue
    rw [ih, send_to_agent_queue]

/-- The `delivered_to` list of the delivery loop is exactly the targets
whose exchange completed. -/
theorem deliverLoop_delivered (reg : List (String × PeerInfo))
    (sockRes : String → SockResult) (targets : List String) (s : AgentState) :
    (deliverLoop reg sockRes s targets).delivered =
      targets.filter (deliverySuccess reg sockRes) := by
  induction targets generalizing s with
  | nil => rfl
  | cons n rest ih =>
    unfold deliverLoop
    simp only [List.filter_cons, ih, send_to_agent_success]

/-- After handling any command the queue is either unchanged or empty. -/
theorem handle_command_queue (s : AgentState) (cmd : Command) (env : Env) :
    (handle_command s cmd env).state.queue = s.queue ∨
    (handle_command s cmd env).state.queue = [] := by
  unfold handle_command
  split
  · split
    · left
      simp only [send_message_to_agents]
      split
      · rfl
      · simp only [deliverLoop_state_queue]
    · left ; rfl
  · split
    · right
      exact receive_command_queue s (cmd.timeout.getD 30) env.waitArrivals
    · split
      · left ; rfl
      · left ; rfl

/-- Any handled envelope preserves the queue-capacity bound. -/
theorem stepOp_queue_le (s : AgentState) (op : AgentOp)
    (h : s.queue.length ≤ queueMaxlen) :
    (stepOp s op).queue.length ≤ queueMaxlen := by
  cases op with
  | remote m => exact handle_remote_message_queue_le s m h
  | command cmd env =>
    rcases handle_command_queue s cmd env with hq | hq <;>
      simp only [stepOp, hq] <;> simp [h]

/-- Any sequence of handled envelopes preserves the queue-capacity bound. -/
theorem runOps_queue_le (ops : List AgentOp) (s : AgentState)
    (h : s.queue.length ≤ queueMaxlen) :
    (runOps s ops).queue.length ≤ queueMaxlen := by
  induction ops generalizing s with
  | nil => simpa [runOps] using h
  | cons op rest ih =>
    simpa [runOps] using ih _ (stepOp_queue_le s op h)

/-- A `receive` during which nothing arrives leaves the wakeup event
cleared. -/
theorem receive_command_eventSet_noArrivals (s : AgentState) (t : Nat) :
    (receive_command s t []).2.eventSet = false := by
  unfold receive_command clear_unread_file
  cases hq : s.queue.isEmpty <;> simp [hq]

/-! Claim theorems. -/

/-- C1: for every `send` command handled by the daemon, if the inbound
queue is non-empty at the moment of the request the reply is exactly
`{status: error, error: "Cannot send: N unread message(s). Use
\"receive\" first."}` with N the current queue depth, the state is
unchanged and no delivery to any peer is attempted; if the queue is
empty the reply has status ok. -/
theorem send_unread_gate (s : AgentState) (env : Env)
    (c : Option String) (t : Option Nat) :
    (s.queue ≠ [] →
      handle_command s ⟨some "send", c, t⟩ env =
        ⟨Reply.error ("Cannot send: " ++ toString s.queue.length ++
            " unread message(s). Use \"receive\" first."), s, []⟩) ∧
    (s.queue = [] →
      (handle_command s ⟨some "send", c, t⟩ env).reply.isOk = true) := by
  constructor
  · intro h
    have hq : s.queue.isEmpty = false := by simpa [List.isEmpty_iff] using h
    simp [handle_command, hq]
  · intro h
    simp [handle_command, h, Reply.isOk]

/-- Witness for the unread-gate theorem: one queued message blocks a
send with the canonical depth-1 error; an empty queue lets it through. -/
theorem send_unread_gate_witness :
    (handle_command demoUnreadState ⟨some "send", some "x", none⟩ {} =
      ⟨Reply.error "Cannot send: 1 unread message(s). Use \"receive\" first.",
        demoUnreadState, []⟩) ∧
    (handle_command (initState "A" "proj" "hi") ⟨some "send", some "x", none⟩
        {}).reply.isOk = true :=
  ⟨(send_unread_gate demoUnreadState {} (some "x") none).1 (by decide),
   (send_unread_gate (initState "A" "proj" "hi") {} (some "x") none).2 rfl⟩

/-- C2 (code-bug evidence): `Agent.handle_command` has no `leave`
branch, so a `leave` command envelope falls through to the
unknown-command reply and no shutdown is initiated (the state is
unchanged) — although chat.py's `cmd_leave` sends exactly this command
and treats anything but `{status: ok}` as a failure. -/
theorem leave_command_unknown :
    handle_command (initState "A" "proj" "hi") ⟨some "leave", none, none⟩ {} =
      ⟨Reply.error "Unknown command: leave", initState "A" "proj" "hi", []⟩ := rfl

/-- C3 (counterexample): in `Agent.run` the endpoint bind does not come
before the registry read — `register()` runs to completion before
`start_local_server()` binds the socket. -/
theorem startup_bind_not_first :
    ¬ (runTrace.indexOf StartupStep.bindEndpoint <
        runTrace.indexOf StartupStep.registryRead) := by decide

/-- C3 (amended): daemon startup reads the registry, probes and evicts a
stale entry, writes the new entry, and broadcasts `join` first; only
then is the endpoint bound (unlinking any old file at the path just
before), and the accept loop starts last. -/
theorem startup_order :
    runTrace.indexOf StartupStep.registryRead <
      runTrace.indexOf StartupStep.staleProbe ∧
    runTrace.indexOf StartupStep.staleProbe <
      runTrace.indexOf StartupStep.staleEvict ∧
    runTrace.indexOf StartupStep.staleEvict <
      runTrace.indexOf StartupStep.registryWrite ∧
    runTrace.indexOf StartupStep.registryWrite <
      runTrace.indexOf StartupStep.joinBroadcast ∧
    runTrace.indexOf StartupStep.joinBroadcast <
      runTrace.indexOf StartupStep.unlinkOldEndpoint ∧
    runTrace.indexOf StartupStep.unlinkOldEndpoint <
      runTrace.indexOf StartupStep.bindEndpoint ∧
    runTrace.indexOf StartupStep.bindEndpoint <
      runTrace.indexOf StartupStep.acceptLoop := by decide

/-- C4: a `receive` command clears the wakeup event first, drains ALL
currently queued messages (never a size-limited prefix — the queue is
left empty); if none were queued it waits up to the caller-provided
timeout for the event and drains again; a timeout with zero messages
yields the successful empty batch, never an error; a timeout of 0 (no
wait window, so no arrivals during the wait) returns immediately with
whatever was already queued. -/
theorem receive_semantics (s : AgentState) (env : Env)
    (c : Option String) (t : Option Nat) :
    (s.queue ≠ [] →
      (handle_command s ⟨some "receive", c, t⟩ env).reply =
        Reply.okReceive s.queue) ∧
    (s.queue = [] → env.waitArrivals = [] →
      (handle_command s ⟨some "receive", c, t⟩ env).reply =
        Reply.okReceive []) ∧
    (t = some 0 → env.waitArrivals = [] →
      (handle_command s ⟨some "receive", c, t⟩ env).reply =
        Reply.okReceive s.queue) ∧
    (env.waitArrivals = [] →
      (handle_command s ⟨some "receive", c, t⟩ env).state.eventSet = false) ∧
    (handle_command s ⟨some "receive", c, t⟩ env).state.queue = [] ∧
    (∃ msgs, (handle_command s ⟨some "receive", c, t⟩ env).reply =
        Reply.okReceive msgs) := by
  have hdl : handle_command s ⟨some "receive", c, t⟩ env =
      ⟨(receive_command s (t.getD 30) env.waitArrivals).1,
       (receive_command s (t.getD 30) env.waitArrivals).2, []⟩ := rfl
  refine ⟨?_, ?_, ?_, ?_, ?_, ?_⟩
  · intro h
    rw [hdl]
    exact receive_command_reply_of_nonempty s (t.getD 30) env.waitArrivals h
  · intro h ha
    rw [hdl, ha]
    rw [show ((⟨(receive_command s (t.getD 30) []).1,
        (receive_command s (t.getD 30) []).2, []⟩ : CmdResult).reply) =
      (receive_command s (t.getD 30) []).1 from rfl]
    rw [receive_command_reply_of_noArrivals, h]
  · intro _ ha
    rw [hdl, ha]
    exact receive_command_reply_of_noArrivals s (t.getD 30)
  · intro ha
    rw [hdl, ha]
    exact receive_command_eventSet_noArrivals s (t.getD 30)
  · rw [hdl]
    exact receive_command_queue s (t.getD 30) env.waitArrivals
  · rw [hdl]
    exact receive_command_reply_ok s (t.getD 30) env.waitArrivals

/-- Witness for the receive theorem: a queued message is drained whole,
an idle receive times out to the empty ok batch, and a timeout of 0
returns the already-queued message. -/
theorem receive_semantics_witness :
    (handle_command demoUnreadState ⟨some "receive", none, some 5⟩ {}).reply =
      Reply.okReceive [demoMsg] ∧
    (handle_command (initState "A" "proj" "hi")
        ⟨some "receive", none, some 5⟩ {}).reply = Reply.okReceive [] ∧
    (handle_command demoUnreadState ⟨some "receive", none, some 0⟩ {}).reply =
      Reply.okReceive [demoMsg] :=
  ⟨(receive_semantics demoUnreadState {} none (some 5)).1 (by decide),
   (receive_semantics (initState "A" "proj" "hi") {} none (some 5)).2.1 rfl rfl,
   (receive_semantics demoUnreadState {} none (some 0)).2.2.1 rfl rfl⟩

/-- C5: after every `receive` command completes — whether it returned
messages or an empty batch — the `.unread-messages` side file does not
exist. -/
theorem receive_clears_unread_file (s : AgentState) (env : Env)
    (c : Option String) (t : Option Nat) :
    (handle_command s ⟨some "receive", c, t⟩ env).state.unreadFile = none := rfl

/-- C6: from a fresh daemon state the inbound queue never holds more
than 100 messages under any sequence of handled envelopes; an arrival at
capacity evicts the oldest (head) message so the most recent 100 remain;
and the overflow is never surfaced as an error — the remote-message
handler always replies ok to the sender. -/
theorem queue_capacity (nm cx pr : String) (ops : List AgentOp)
    (q : List Msg) (m : Msg) (s : AgentState) (m' : Msg) :
    ((runOps (initState nm cx pr) ops).queue.length ≤ 100) ∧
    (q.length = 100 →
      enqueueBounded q m = q.tail ++ [m] ∧
      (enqueueBounded q m).length = 100) ∧
    ((handle_remote_message s m').1 = Reply.ok) := by
  refine ⟨?_, ?_, handle_remote_message_reply s m'⟩
  · exact runOps_queue_le ops _ (by simp [initState, queueMaxlen])
  · intro h
    constructor
    · simp [enqueueBounded, queueMaxlen, h]
    · simp [enqueueBounded, queueMaxlen, h]

/-- Witness for the queue-capacity theorem: appending to a full queue of
100 copies evicts the head and keeps the length at 100. -/
theorem queue_capacity_witness :
    enqueueBounded (List.replicate 100 demoMsg) demoMsg =
      (List.replicate 100 demoMsg).tail ++ [demoMsg] ∧
    (enqueueBounded (List.replicate 100 demoMsg) demoMsg).length = 100 :=
  (queue_capacity "A" "proj" "hi" [] (List.replicate 100 demoMsg) demoMsg
    (initState "A" "proj" "hi") demoMsg).2.1 (by simp)

/-- C7 (counterexample): not every reader of a framed message refuses
oversized frames — the client-side reader of chat.py / human-cli.py has
no 1 MiB guard.  On a frame declaring 1 MiB + 1 bytes it proceeds to
read body bytes, while the daemon-side reader raises after the 4 header
bytes. -/
theorem client_reader_no_size_guard :
    be32 [0, 16, 0, 1] = 1048577 ∧
    MAX_MESSAGE_SIZE < 1048577 ∧
    client_read_reply [0, 16, 0, 1, 123] = (.gotData [123], 5) ∧
    recv_framed_message [0, 16, 0, 1, 123] = (.tooLarge 1048577, 4) :=
  ⟨rfl, by decide, rfl, rfl⟩

/-- C7 (amended): the daemon-side reader `recv_framed_message` refuses a
frame whose declared 4-byte big-endian length exceeds 1 MiB before any
body byte is read (exactly the 4 header bytes are consumed, and it
raises); on a successfully read frame the declared length equals the
number of body bytes consumed, which never exceeds 1 MiB.  The
client-side CLI readers carry no such guard. -/
theorem daemon_reader_size_guard (stream body : List Nat) (n : Nat) :
    (4 ≤ stream.length → MAX_MESSAGE_SIZE < be32 (stream.take 4) →
      recv_framed_message stream = (.tooLarge (be32 (stream.take 4)), 4)) ∧
    (recv_framed_message stream = (.frame body, n) →
      body.length = be32 (stream.take 4) ∧ n = 4 + body.length ∧
      body.length ≤ MAX_MESSAGE_SIZE) := by
  constructor
  · intro h4 hbig
    unfold recv_framed_message
    rw [if_neg (by omega), if_pos hbig]
  · intro h
    simp only [recv_framed_message] at h
    split at h
    · simp at h
    · split at h
      · simp at h
      · split at h
        · simp at h
        · rename_i h4 hbig hrest
          simp only [Prod.mk.injEq, RecvResult.frame.injEq] at h
          obtain ⟨hb, hn⟩ := h
          subst hb hn
          refine ⟨?_, ?_, ?_⟩ <;> rw [List.length_take] <;> omega

/-- Witness for the daemon reader theorem: the oversized demo frame is
refused with 4 bytes consumed; a well-formed 2-byte frame is read with
declared length equal to the consumed body. -/
theorem daemon_reader_size_guard_witness :
    recv_framed_message [0, 16, 0, 1, 123] =
      (.tooLarge (be32 ([0, 16, 0, 1, 123].take 4)), 4) ∧
    (([65, 66] : List Nat).length = be32 ([0, 0, 0, 2, 65, 66, 67].take 4) ∧
      6 = 4 + ([65, 66] : List Nat).length ∧
      ([65, 66] : List Nat).length ≤ MAX_MESSAGE_SIZE) :=
  ⟨(daemon_reader_size_guard [0, 16, 0, 1, 123] [] 0).1 (by decide) (by decide),
   (daemon_reader_size_guard [0, 0, 0, 2, 65, 66, 67] [65, 66] 6).2 rfl⟩

/-- C8 (counterexample): `read_registry` does not shield the JSON
decode — a present file whose contents fail to decode (such as the
single-brace text "\x7b") propagates the raised `JSONDecodeError`
rather than returning the empty map. -/
theorem read_registry_raises_on_malformed :
    read_registry (.present "\x7b" (.raises "Expecting property name")) =
      Except.error "Expecting property name" ∧
    read_registry (.present "\x7b" (.raises "Expecting property name")) ≠
      Except.ok [] := by
  refine ⟨rfl, ?_⟩
  intro h
  simp [read_registry] at h

/-- C8 (amended): a missing registry file or an empty file yields the
empty map; a non-empty file that decodes yields the decoded map; but a
non-empty file whose contents fail to JSON-decode raises the decode
error to the caller instead of returning the empty map. -/
theorem read_registry_semantics (c : String) (l : JsonDecode)
    (r : List (String × PeerInfo)) (e : String) :
    (read_registry .missing = Except.ok []) ∧
    (read_registry (.present "" l) = Except.ok []) ∧
    (c ≠ "" → read_registry (.present c (.value r)) = Except.ok r) ∧
    (c ≠ "" → read_registry (.present c (.raises e)) = Except.error e) := by
  refine ⟨rfl, rfl, ?_, ?_⟩ <;> intro h <;> simp [read_registry, h]

/-- Witness for the registry-read theorem: a decodable two-brace file
yields its map, a malformed one-brace file raises. -/
theorem read_registry_semantics_witness :
    read_registry (.present "\x7b\x7d" (.value [])) = Except.ok [] ∧
    read_registry (.present "\x7b" (.raises "Expecting value")) =
      Except.error "Expecting value" :=
  ⟨(read_registry_semantics "\x7b\x7d" (.value []) [] "x").2.2.1 (by decide),
   (read_registry_semantics "\x7b" (.value []) [] "Expecting value").2.2.2
     (by decide)⟩

/-- C9: a `send` command issued with an empty queue when the registry
holds no peers other than the sender replies
`{status: ok, data: {delivered_to: [], failed: {}}}`, refreshes the
members cache to empty, and attempts no connection to any endpoint. -/
theorem send_no_peers (s : AgentState) (env : Env)
    (c : Option String) (t : Option Nat)
    (hq : s.queue = [])
    (hp : env.registry.filter (fun p => p.1 ≠ s.name) = []) :
    handle_command s ⟨some "send", c, t⟩ env =
      ⟨Reply.okSend [] [], { s with members := [] }, []⟩ := by
  have hp' : List.filter (fun p => !decide (p.1 = s.name)) env.registry = [] := by
    simpa using hp
  simp [handle_command, hq, send_message_to_agents, hp']

/-- Witness for the zero-peer send theorem: a registry holding only the
sender itself yields the empty ok report. -/
theorem send_no_peers_witness :
    handle_command (initState "A" "proj" "hi")
        ⟨some "send", some "hello", none⟩
        { registry := [("A", { name := some "A" })] } =
      ⟨Reply.okSend [] [], { initState "A" "proj" "hi" with members := [] },
       []⟩ :=
  send_no_peers (initState "A" "proj" "hi")
    { registry := [("A", { name := some "A" })] } (some "hello") none rfl
    (by decide)

/-- C10: during delivery a peer is counted in `delivered_to` exactly
when the transient connect, framed write and reply read complete without
a socket error; the content of the peer's reply is never inspected (an
error-status reply or an empty reply read is still reported as
delivered, the state untouched); only socket failures record the peer in
the `failed` map with the error text and remove it from the members
cache — every non-socket-error outcome leaves the members cache
unchanged. -/
theorem delivery_reporting :
    (∀ (s : AgentState) (reg : List (String × PeerInfo)) (n : String)
        (r r' : Option Reply),
      send_to_agent s reg n (.exchanged r) =
        send_to_agent s reg n (.exchanged r')) ∧
    (∀ (s : AgentState) (reg : List (String × PeerInfo)) (n : String)
        (r : Option Reply), connectAttempted reg n = true →
      send_to_agent s reg n (.exchanged r) = ((true, none), s)) ∧
    (∀ (s : AgentState) (reg : List (String × PeerInfo)) (n : String)
        (e : String), connectAttempted reg n = true →
      send_to_agent s reg n (.sockError e) =
        ((false, some e), { s with members := dictRemove s.members n })) ∧
    (∀ (s : AgentState) (reg : List (String × PeerInfo)) (n : String)
        (sr : SockResult),
      (send_to_agent s reg n sr).2.members ≠ s.members →
        ∃ e, sr = .sockError e) ∧
    (∀ (reg : List (String × PeerInfo)) (sockRes : String → SockResult)
        (s : AgentState) (targets : List String),
      (deliverLoop reg sockRes s targets).delivered =
        targets.filter (deliverySuccess reg sockRes)) := by
  refine ⟨?_, ?_, ?_, ?_, ?_⟩
  · intro s reg n r r'
    rfl
  · intro s reg n r h
    simp only [connectAttempted] at h
    simp only [send_to_agent]
    cases hg : dictGet reg n <;> simp only [hg] at h ⊢
    · exact absurd h (by simp)
    · simp [h]
  · intro s reg n e h
    simp only [connectAttempted] at h
    simp only [send_to_agent]
    cases hg : dictGet reg n <;> simp only [hg] at h ⊢
    · exact absurd h (by simp)
    · rw [if_pos h]
      cases hany : s.members.any (fun p => p.1 = n) with
      | true => simp only [hany, if_true]
      | false =>
        simp only [hany, Bool.false_eq_true, if_false]
        have hself : s.members.filter (fun p => !decide (p.1 = n)) = s.members := by
          apply List.filter_eq_self.mpr
          intro a ha
          simp only [List.any_eq_false] at hany
          simpa using hany a ha
        have hrem : dictRemove s.members n = s.members := by
          simpa [dictRemove] using hself
        simp [hrem]
  · intro s reg n sr
    cases sr with
    | exchanged r =>
      intro hne
      rw [send_to_agent_exchanged_state] at hne
      exact absurd rfl hne
    | sockError e =>
      intro _
      exact ⟨e, rfl⟩
  · intro reg sockRes s targets
    exact deliverLoop_delivered reg sockRes targets s

/-- Witness for the delivery-reporting theorem: against a live registry
entry for "B", an error-status reply still counts as delivered with the
members cache intact, while a connection-refused socket error lands in
`failed` and evicts "B" from the members cache. -/
theorem delivery_reporting_witness :
    (send_to_agent demoMembersState demoRegistry "B"
        (.exchanged (some (Reply.error "boom"))) =
      ((true, none), demoMembersState)) ∧
    (send_to_agent demoMembersState demoRegistry "B"
        (.sockError "Connection refused") =
      ((false, some "Connection refused"),
        { demoMembersState with
            members := dictRemove demoMembersState.members "B" })) :=
  ⟨delivery_reporting.2.1 demoMembersState demoRegistry "B"
      (some (Reply.error "boom")) (by decide),
   delivery_reporting.2.2.1 demoMembersState demoRegistry "B"
      "Connection refused" (by decide)⟩

end AgentComm
